import Mathlib

/-
Verification development for the self-portrait shape-morphing engine.

The source is a browser application.  The morphing core consists of:
  - morph.js              : resample, lerpPt, the Morph class
  - AnimationController   : morphTo, updateMorphedShapes, morphFeaturePoints
  - AppState              : calculateFaceParameters, getShapeIndices,
                            generateCurrentFaceShapes (with the shape cache)
  - FaceGenerator         : getShapeIndices (identical loop body to AppState)
  - PortraitApp           : startShapeMorphing (the change guard)
  - CONFIG                : the live configuration (the one consumed by the
                            controller files) has ANIMATION.MORPH.SAMPLE_POINTS = 32
                            and ANIMATION.MORPH.RESAMPLE_DURING_MORPH = true.

Numbers are embedded as rationals (exact arithmetic; JavaScript floats have no
NaN counterpart here, and the one NaN-producing input the claims mention is
modelled through Option).  The Euclidean metric used by resample is
Math.hypot, whose value is irrational; every property proved about resample is
independent of the metric, so the development abstracts the metric as a
parameter d and proves the claims for every metric, hence in particular for
the true one.  A concrete computable metric (metricL1) is used only to
instantiate metric-generic theorems on concrete inputs.
-/

namespace SelfPortrait

/-- A 2D point, as the {x, y} records used throughout the source. -/
structure Pt where
  x : ℚ
  y : ℚ
deriving DecidableEq, Repr

/-- Linear interpolation between two points (morph.js lerpPt). -/
def lerpPt (a b : Pt) (t : ℚ) : Pt :=
  { x := a.x + (b.x - a.x) * t
    y := a.y + (b.y - a.y) * t }

/-- Total arc length of a polyline under metric d: the source loops
i = 1 .. P.length - 1 accumulating dist2(P[i-1], P[i]). -/
def totalLengthOf (d : Pt → Pt → ℚ) (P : List Pt) : ℚ :=
  (P.zip P.tail).foldl (fun acc pq => acc + d pq.1 pq.2) 0

/-- The while-loop of morph.js resample, made structural by a fuel argument.
Each iteration either appends one output point or advances currentIndex, so
the measure 2 * (N - result.length) + (P.length - currentIndex) strictly
decreases; the caller supplies fuel at least that measure.

Branches, in source order:
  - while condition fails (result.length is at least N): stop;
  - currentIndex past the end of P: push the last point of P;
  - the accumulated distance plus this segment reaches stepSize: place an
    interpolated point inside the segment, splice it into P at currentIndex,
    reset the accumulated distance, and continue from the inserted point;
  - otherwise walk to the next segment.
The indexing P[currentIndex] is guarded by currentIndex < P.length, so the
getD default is never used.  P is nonempty at every call site, so the
getLast default is never used either. -/
def resampleLoop (d : Pt → Pt → ℚ) (N : ℕ) (stepSize : ℚ) :
    ℕ → List Pt → ℕ → ℚ → Pt → List Pt → List Pt
  | 0, _, _, _, _, result => result
  | fuel + 1, P, currentIndex, accumulatedDistance, previousPoint, result =>
    if N ≤ result.length then result
    else if P.length ≤ currentIndex then
      resampleLoop d N stepSize fuel P currentIndex accumulatedDistance previousPoint
        (result ++ [P.getLast?.getD previousPoint])
    else
      let currentPoint := P.getD currentIndex { x := 0, y := 0 }
      let segmentLength := d previousPoint currentPoint
      if stepSize ≤ accumulatedDistance + segmentLength then
        let interpolatedPoint :=
          lerpPt previousPoint currentPoint ((stepSize - accumulatedDistance) / segmentLength)
        resampleLoop d N stepSize fuel (P.insertIdx currentIndex interpolatedPoint)
          currentIndex 0 interpolatedPoint (result ++ [interpolatedPoint])
      else
        resampleLoop d N stepSize fuel P (currentIndex + 1)
          (accumulatedDistance + segmentLength) currentPoint result

/-- morph.js resample: empty input gives empty output; zero total arc length
gives N copies of the first point; otherwise the uniform-arc-length walk.
The JSON clone steps of the source are identities on values. -/
def resample (d : Pt → Pt → ℚ) (points : List Pt) (N : ℕ) : List Pt :=
  match points with
  | [] => []
  | p0 :: _ =>
    if totalLengthOf d points = 0 then
      List.replicate N p0
    else
      resampleLoop d N (totalLengthOf d points / ((N : ℚ) - 1))
        (2 * N + points.length) points 1 0 p0 [p0]

/-- A concrete computable metric used only to instantiate the metric-generic
theorems on concrete inputs (the properties proved hold for every metric). -/
def metricL1 (a b : Pt) : ℚ :=
  |a.x - b.x| + |a.y - b.y|

lemma resampleLoop_length (d : Pt → Pt → ℚ) (N : ℕ) (stepSize : ℚ) :
    ∀ (fuel : ℕ) (P : List Pt) (idx : ℕ) (acc : ℚ) (prev : Pt) (res : List Pt),
      res.length ≤ N →
      2 * (N - res.length) + (P.length - idx) ≤ fuel →
      (resampleLoop d N stepSize fuel P idx acc prev res).length = N := by
  intro fuel
  induction fuel with
  | zero =>
    intro P idx acc prev res h1 h2
    simp only [resampleLoop]
    omega
  | succ fuel ih =>
    intro P idx acc prev res h1 h2
    rw [resampleLoop]
    by_cases hstop : N ≤ res.length
    · rw [if_pos hstop]; omega
    · rw [if_neg hstop]
      by_cases hend : P.length ≤ idx
      · rw [if_pos hend]
        apply ih
        · simp only [List.length_append, List.length_singleton]; omega
        · simp only [List.length_append, List.length_singleton]; omega
      · rw [if_neg hend]
        simp only
        by_cases hseg :
            stepSize ≤ acc + d prev (P.getD idx { x := 0, y := 0 })
        · rw [if_pos hseg]
          apply ih
          · simp only [List.length_append, List.length_singleton]; omega
          · rw [List.length_insertIdx idx P (by omega)]
            simp only [List.length_append, List.length_singleton]
            omega
        · rw [if_neg hseg]
          apply ih
          · omega
          · omega

lemma resampleLoop_append (d : Pt → Pt → ℚ) (N : ℕ) (stepSize : ℚ) :
    ∀ (fuel : ℕ) (P : List Pt) (idx : ℕ) (acc : ℚ) (prev : Pt) (res : List Pt),
      ∃ t, resampleLoop d N stepSize fuel P idx acc prev res = res ++ t := by
  intro fuel
  induction fuel with
  | zero =>
    intro P idx acc prev res
    exact ⟨[], by simp [resampleLoop]⟩
  | succ fuel ih =>
    intro P idx acc prev res
    rw [resampleLoop]
    by_cases hstop : N ≤ res.length
    · rw [if_pos hstop]; exact ⟨[], by simp⟩
    · rw [if_neg hstop]
      by_cases hend : P.length ≤ idx
      · rw [if_pos hend]
        obtain ⟨t, ht⟩ := ih P idx acc prev (res ++ [P.getLast?.getD prev])
        exact ⟨[P.getLast?.getD prev] ++ t, by rw [ht, List.append_assoc]⟩
      · rw [if_neg hend]
        simp only
        by_cases hseg :
            stepSize ≤ acc + d prev (P.getD idx { x := 0, y := 0 })
        · rw [if_pos hseg]
          obtain ⟨t, ht⟩ := ih
            (P.insertIdx idx
              (lerpPt prev (P.getD idx { x := 0, y := 0 })
                ((stepSize - acc) / d prev (P.getD idx { x := 0, y := 0 }))))
            idx 0
            (lerpPt prev (P.getD idx { x := 0, y := 0 })
              ((stepSize - acc) / d prev (P.getD idx { x := 0, y := 0 })))
            (res ++
              [lerpPt prev (P.getD idx { x := 0, y := 0 })
                ((stepSize - acc) / d prev (P.getD idx { x := 0, y := 0 }))])
          refine ⟨[lerpPt prev (P.getD idx { x := 0, y := 0 })
            ((stepSize - acc) / d prev (P.getD idx { x := 0, y := 0 }))] ++ t, ?_⟩
          rw [ht, List.append_assoc]
        · rw [if_neg hseg]
          exact ih P (idx + 1) (acc + d prev (P.getD idx { x := 0, y := 0 }))
            (P.getD idx { x := 0, y := 0 }) res

/-- Shared core of the resampling contract: exact output count. -/
lemma resample_length (d : Pt → Pt → ℚ) (points : List Pt) (N : ℕ)
    (hne : points ≠ []) (hN : 1 ≤ N) :
    (resample d points N).length = N := by
  match points with
  | [] => exact absurd rfl hne
  | p0 :: rest =>
    rw [resample]
    by_cases h0 : totalLengthOf d (p0 :: rest) = 0
    · rw [if_pos h0, List.length_replicate]
    · rw [if_neg h0]
      apply resampleLoop_length
      · simpa using hN
      · simp only [List.length_cons, List.length_singleton]
        omega

/-- Shared core of the resampling contract: the first output point is the
first input point. -/
lemma resample_head (d : Pt → Pt → ℚ) (points : List Pt) (N : ℕ)
    (hne : points ≠ []) (hN : 1 ≤ N) :
    (resample d points N).head? = points.head? := by
  match points with
  | [] => exact absurd rfl hne
  | p0 :: rest =>
    rw [resample]
    by_cases h0 : totalLengthOf d (p0 :: rest) = 0
    · rw [if_pos h0]
      match N, hN with
      | n + 1, _ => simp [List.replicate_succ]
    · rw [if_neg h0]
      obtain ⟨t, ht⟩ := resampleLoop_append d N
        (totalLengthOf d (p0 :: rest) / ((N : ℚ) - 1))
        (2 * N + (p0 :: rest).length) (p0 :: rest) 1 0 p0 [p0]
      rw [ht]
      simp

/-- C2: for every metric, every non-empty point list and every N at least 1,
resample returns exactly N points and its first point is identical to the
first input point. -/
theorem resample_point_count_and_anchor (d : Pt → Pt → ℚ) (points : List Pt) (N : ℕ)
    (hne : points ≠ []) (hN : 1 ≤ N) :
    (resample d points N).length = N ∧ (resample d points N).head? = points.head? :=
  ⟨resample_length d points N hne hN, resample_head d points N hne hN⟩

/-- Witness for C2 on a concrete two-point polyline resampled to three points. -/
theorem resample_point_count_and_anchor_witness :
    (resample metricL1 [{ x := 0, y := 0 }, { x := 2, y := 0 }] 3).length = 3 ∧
    (resample metricL1 [{ x := 0, y := 0 }, { x := 2, y := 0 }] 3).head? =
      ([{ x := 0, y := 0 }, { x := 2, y := 0 }] : List Pt).head? :=
  resample_point_count_and_anchor metricL1 [{ x := 0, y := 0 }, { x := 2, y := 0 }] 3
    (by simp) (by norm_num)

/-- The per-feature selection body shared verbatim by AppState.getShapeIndices
and FaceGenerator.getShapeIndices: clamp the score to [-1, 1], map it to
[0, 1], divide by the segment size 1 / faceCount and floor, then clamp the
result below faceCount.  The index is an integer (it is -1 when faceCount is
0, exactly as the JavaScript arithmetic gives). -/
def selectIndex (score : ℚ) (faceCount : ℕ) : ℤ :=
  let clampedScore := max (-1) (min 1 score)
  let normalizedScore := (clampedScore + 1) / 2
  let segmentSize : ℚ := 1 / (faceCount : ℚ)
  let selectedIndex : ℤ := ⌊normalizedScore / segmentSize⌋
  if (faceCount : ℤ) ≤ selectedIndex then (faceCount : ℤ) - 1 else selectedIndex

/-- Modelled from the spec contract for selectIndex: clamp the score to
[-1, 1], map linearly to [0, 1], multiply by libraryCount and floor, and clamp
the result to [0, libraryCount - 1].  Stated separately so the code-derived
selectIndex can be proved to refine it. -/
def selectIndexSpec (score : ℚ) (libraryCount : ℕ) : ℤ :=
  let clamped := max (-1) (min 1 score)
  let unit := (clamped + 1) / 2
  let floored : ℤ := ⌊unit * (libraryCount : ℚ)⌋
  min (max floored 0) ((libraryCount : ℤ) - 1)

lemma clamp_bounds (s : ℚ) : -1 ≤ max (-1) (min 1 s) ∧ max (-1) (min 1 s) ≤ 1 :=
  ⟨le_max_left _ _, max_le (by norm_num) (min_le_left _ _)⟩

lemma unit_bounds (s : ℚ) :
    0 ≤ (max (-1) (min 1 s) + 1) / 2 ∧ (max (-1) (min 1 s) + 1) / 2 ≤ 1 := by
  obtain ⟨h1, h2⟩ := clamp_bounds s
  constructor <;> [linarith; linarith]

lemma div_segment_eq_mul (u : ℚ) (k : ℕ) (hk : 1 ≤ k) :
    u / (1 / (k : ℚ)) = u * (k : ℚ) := by
  have hk0 : (k : ℚ) ≠ 0 := by
    have : 0 < k := hk
    positivity
  field_simp

lemma floor_unit_mul_bounds (s : ℚ) (k : ℕ) (hk : 1 ≤ k) :
    0 ≤ ⌊(max (-1) (min 1 s) + 1) / 2 * (k : ℚ)⌋ ∧
    ⌊(max (-1) (min 1 s) + 1) / 2 * (k : ℚ)⌋ ≤ (k : ℤ) := by
  obtain ⟨h0, h1⟩ := unit_bounds s
  constructor
  · exact Int.floor_nonneg.mpr (mul_nonneg h0 (by positivity))
  · calc ⌊(max (-1) (min 1 s) + 1) / 2 * (k : ℚ)⌋
        ≤ ⌊(1 : ℚ) * (k : ℚ)⌋ := by
          apply Int.floor_le_floor
          exact mul_le_mul_of_nonneg_right h1 (by positivity)
    _ = (k : ℤ) := by rw [one_mul]; exact_mod_cast Int.floor_natCast k

/-- Shared refinement core: the code-derived selectIndex agrees with the
spec-worded selectIndexSpec for every score once the library is non-empty. -/
lemma selectIndex_eq_spec (s : ℚ) (k : ℕ) (hk : 1 ≤ k) :
    selectIndex s k = selectIndexSpec s k := by
  unfold selectIndex selectIndexSpec
  simp only
  rw [div_segment_eq_mul _ k hk]
  obtain ⟨hlo, hhi⟩ := floor_unit_mul_bounds s k hk
  by_cases hcl : (k : ℤ) ≤ ⌊(max (-1) (min 1 s) + 1) / 2 * (k : ℚ)⌋
  · rw [if_pos hcl]
    omega
  · rw [if_neg hcl]
    omega

/-- Shared range core: the selected index lies in [0, k - 1]. -/
lemma selectIndex_range (s : ℚ) (k : ℕ) (hk : 1 ≤ k) :
    0 ≤ selectIndex s k ∧ selectIndex s k ≤ (k : ℤ) - 1 := by
  rw [selectIndex_eq_spec s k hk]
  unfold selectIndexSpec
  simp only
  constructor
  · apply le_min
    · exact le_max_right _ _
    · omega
  · exact min_le_right _ _

/-- Shared monotonicity core. -/
lemma selectIndex_mono (k : ℕ) (hk : 1 ≤ k) {s1 s2 : ℚ} (h : s1 ≤ s2) :
    selectIndex s1 k ≤ selectIndex s2 k := by
  rw [selectIndex_eq_spec s1 k hk, selectIndex_eq_spec s2 k hk]
  unfold selectIndexSpec
  simp only
  have hcl : max (-1) (min 1 s1) ≤ max (-1) (min 1 s2) :=
    max_le_max le_rfl (min_le_min le_rfl h)
  have hfl : ⌊(max (-1) (min 1 s1) + 1) / 2 * (k : ℚ)⌋ ≤
      ⌊(max (-1) (min 1 s2) + 1) / 2 * (k : ℚ)⌋ := by
    apply Int.floor_le_floor
    apply mul_le_mul_of_nonneg_right _ (by positivity)
    linarith
  exact min_le_min (max_le_max hfl le_rfl) le_rfl

/-- C1: for every library count k at least 1, the discrete selection performs
exactly the spec pipeline (clamp to [-1, 1], map to [0, 1], scale by k, floor,
clamp into [0, k - 1]); it is non-decreasing in the score, selects 0 at score
-1 and selects k - 1 at score 1. -/
theorem selectIndex_contract (k : ℕ) (hk : 1 ≤ k) :
    (∀ s : ℚ, selectIndex s k = selectIndexSpec s k) ∧
    (∀ s1 s2 : ℚ, s1 ≤ s2 → selectIndex s1 k ≤ selectIndex s2 k) ∧
    selectIndex (-1) k = 0 ∧
    selectIndex 1 k = (k : ℤ) - 1 := by
  refine ⟨fun s => selectIndex_eq_spec s k hk,
    fun s1 s2 h => selectIndex_mono k hk h, ?_, ?_⟩
  · rw [selectIndex_eq_spec _ k hk]
    unfold selectIndexSpec
    norm_num
    omega
  · rw [selectIndex_eq_spec _ k hk]
    unfold selectIndexSpec
    norm_num [Int.floor_natCast]

/-- Witness for C1 at a six-entry library. -/
theorem selectIndex_contract_witness :
    selectIndex (-1 : ℚ) 6 = 0 ∧
    selectIndex (1 : ℚ) 6 = (6 : ℤ) - 1 ∧
    selectIndex (1 / 4 : ℚ) 6 ≤ selectIndex (1 / 3 : ℚ) 6 ∧
    selectIndex (1 / 4 : ℚ) 6 = selectIndexSpec (1 / 4 : ℚ) 6 := by
  obtain ⟨hspec, hmono, h0, h1⟩ := selectIndex_contract 6 (by norm_num)
  exact ⟨h0, h1, hmono _ _ (by norm_num), hspec _⟩

/-- The faceParams object read by getShapeIndices and
generateCurrentFaceShapes.  A field is an Option: none models a key that is
absent or undefined, and also a NaN score (JavaScript `score || 0` turns
undefined, NaN and 0 alike into 0; rationals have no NaN, so none stands for
every falsy-or-NaN score). -/
structure FaceParams where
  head : Option ℚ
  eye : Option ℚ
  mouth : Option ℚ
  proportion : Option ℚ
  movement : Option ℚ
deriving DecidableEq, Repr

/-- JavaScript `v || 0` on a possibly-missing numeric score. -/
def orZero (v : Option ℚ) : ℚ :=
  match v with
  | some s => s
  | none => 0

/-- The DiscreteIndexSet: the indices object built by getShapeIndices for the
features head, eye and mouth.  Structural equality is the cache key and the
change-guard comparator (JSON.stringify equality in the source). -/
structure ShapeIndices where
  head : ℤ
  eye : ℤ
  mouth : ℤ
deriving DecidableEq, Repr

/-- AppState.getShapeIndices and FaceGenerator.getShapeIndices (identical
bodies): the per-feature selection applied to faceParams[feature] || 0 for
head, eye and mouth.  AppState passes faceCount = faceSets.length; the
FaceGenerator variant takes faceCount as an argument, as here. -/
def getShapeIndices (faceParams : FaceParams) (faceCount : ℕ) : ShapeIndices :=
  { head := selectIndex (orZero faceParams.head) faceCount
    eye := selectIndex (orZero faceParams.eye) faceCount
    mouth := selectIndex (orZero faceParams.mouth) faceCount }

/-- C10: getShapeIndices is total and in-range: for every faceParams map,
including maps whose scores are absent, undefined or NaN (modelled by none and
scored 0), and every faceCount at least 1, each of the head, eye and mouth
indices is an integer in [0, faceCount - 1]. -/
theorem getShapeIndices_total_in_range (p : FaceParams) (k : ℕ) (hk : 1 ≤ k) :
    (0 ≤ (getShapeIndices p k).head ∧ (getShapeIndices p k).head ≤ (k : ℤ) - 1) ∧
    (0 ≤ (getShapeIndices p k).eye ∧ (getShapeIndices p k).eye ≤ (k : ℤ) - 1) ∧
    (0 ≤ (getShapeIndices p k).mouth ∧ (getShapeIndices p k).mouth ≤ (k : ℤ) - 1) :=
  ⟨selectIndex_range _ k hk, selectIndex_range _ k hk, selectIndex_range _ k hk⟩

/-- A faceParams value with an absent eye score and out-of-range head and
mouth scores, used to instantiate the C10 theorem. -/
def spikyParams : FaceParams :=
  { head := some (7 / 2), eye := none, mouth := some (-9)
    proportion := none, movement := none }

/-- Witness for C10, with an absent eye score and out-of-range head and mouth
scores. -/
theorem getShapeIndices_total_in_range_witness :
    (0 ≤ (getShapeIndices spikyParams 6).head ∧
      (getShapeIndices spikyParams 6).head ≤ (6 : ℤ) - 1) ∧
    (0 ≤ (getShapeIndices spikyParams 6).eye ∧
      (getShapeIndices spikyParams 6).eye ≤ (6 : ℤ) - 1) ∧
    (0 ≤ (getShapeIndices spikyParams 6).mouth ∧
      (getShapeIndices spikyParams 6).mouth ≤ (6 : ℤ) - 1) :=
  getShapeIndices_total_in_range spikyParams 6 (by norm_num)

/-- Sparse per-dimension weights of one feature in CONFIG.MBTI.FEATURE_WEIGHTS
(a missing dimension contributes zero). -/
structure DimWeights where
  e_i : Option ℚ
  s_n : Option ℚ
  t_f : Option ℚ
  j_p : Option ℚ
deriving DecidableEq

/-- CONFIG.MBTI.FEATURE_WEIGHTS.eye: e_i -0.3, s_n -0.2, j_p 0.5. -/
def eyeWeights : DimWeights :=
  { e_i := some (-3 / 10), s_n := some (-2 / 10), t_f := none, j_p := some (5 / 10) }

/-- CONFIG.MBTI.FEATURE_WEIGHTS.mouth: e_i -0.5, t_f -0.5. -/
def mouthWeights : DimWeights :=
  { e_i := some (-5 / 10), s_n := none, t_f := some (-5 / 10), j_p := none }

/-- CONFIG.MBTI.FEATURE_WEIGHTS.head: s_n 0.6, t_f 0.4. -/
def headWeights : DimWeights :=
  { e_i := none, s_n := some (6 / 10), t_f := some (4 / 10), j_p := none }

/-- CONFIG.MBTI.FEATURE_WEIGHTS.proportion: e_i 0.7, j_p 0.3. -/
def proportionWeights : DimWeights :=
  { e_i := some (7 / 10), s_n := none, t_f := none, j_p := some (3 / 10) }

/-- CONFIG.MBTI.FEATURE_WEIGHTS.movement: s_n -0.4, j_p 0.6. -/
def movementWeights : DimWeights :=
  { e_i := none, s_n := some (-4 / 10), t_f := none, j_p := some (6 / 10) }

/-- The four MBTI slider values [e_i, s_n, t_f, j_p]. -/
structure Mbti where
  e_i : ℚ
  s_n : ℚ
  t_f : ℚ
  j_p : ℚ
deriving DecidableEq

/-- The weighted-sum body of AppState.calculateFaceParameters: start from 0
and add weight times dimension for every dimension the feature defines. -/
def weightedSum (w : DimWeights) (m : Mbti) : ℚ :=
  (match w.e_i with | some v => v * m.e_i | none => 0) +
  (match w.s_n with | some v => v * m.s_n | none => 0) +
  (match w.t_f with | some v => v * m.t_f | none => 0) +
  (match w.j_p with | some v => v * m.j_p | none => 0)

/-- AppState.calculateFaceParameters over the documented weight table. -/
def calculateFaceParameters (m : Mbti) : FaceParams :=
  { head := some (weightedSum headWeights m)
    eye := some (weightedSum eyeWeights m)
    mouth := some (weightedSum mouthWeights m)
    proportion := some (weightedSum proportionWeights m)
    movement := some (weightedSum movementWeights m) }

/-- Concrete evaluation of selectIndex on a literal score and library count,
through the spec form and norm_num floor evaluation. -/
lemma selectIndex_eval (s : ℚ) (k : ℕ) (v : ℤ) (hk : 1 ≤ k)
    (hv : selectIndexSpec s k = v) : selectIndex s k = v :=
  (selectIndex_eq_spec s k hk).trans hv

lemma scenarioA_scores :
    calculateFaceParameters { e_i := -1, s_n := -1, t_f := -1, j_p := -1 } =
      { head := some (-1), eye := some 0, mouth := some 1
        proportion := some (-1), movement := some (-1 / 5) } := by
  simp only [calculateFaceParameters, weightedSum, headWeights, eyeWeights,
    mouthWeights, proportionWeights, movementWeights, FaceParams.mk.injEq,
    Option.some.injEq]
  norm_num

/-- Shared evaluation of scenario A: the indices produced by the code at
vector [-1, -1, -1, -1] with six library entries. -/
lemma scenarioA_params_eval :
    getShapeIndices (calculateFaceParameters { e_i := -1, s_n := -1, t_f := -1, j_p := -1 }) 6 =
      { head := 0, eye := 3, mouth := 5 } := by
  rw [scenarioA_scores]
  have e1 : selectIndex (-1) 6 = 0 := by
    apply selectIndex_eval _ _ _ (by norm_num)
    unfold selectIndexSpec
    norm_num
  have e2 : selectIndex 0 6 = 3 := by
    apply selectIndex_eval _ _ _ (by norm_num)
    unfold selectIndexSpec
    norm_num [max_def, min_def]
  have e3 : selectIndex 1 6 = 5 := by
    apply selectIndex_eval _ _ _ (by norm_num)
    unfold selectIndexSpec
    norm_num [max_def, min_def, Int.floor_natCast]
  simp [getShapeIndices, orZero, e1, e2, e3]

/-- Counterexample to C3: with the documented weights and a six-entry library,
the vector [-1, -1, -1, -1] does not select index 0 for every feature.  The
eye score is 0.3 + 0.2 - 0.5 = 0 (bucket 3) and the mouth score is
0.5 + 0.5 = 1 (bucket 5); only the head score is -1 (bucket 0). -/
theorem scenarioA_counterexample :
    getShapeIndices (calculateFaceParameters { e_i := -1, s_n := -1, t_f := -1, j_p := -1 }) 6 ≠
      { head := 0, eye := 0, mouth := 0 } := by
  rw [scenarioA_params_eval]
  intro h
  exact absurd (congrArg ShapeIndices.eye h) (by norm_num)

/-- C3 amended: the vector [-1, -1, -1, -1] with a six-entry library and the
documented weight table selects index 0 for the head, index 3 for the eye
(score 0) and index 5 for the mouth (score 1). -/
theorem scenarioA_amended :
    getShapeIndices (calculateFaceParameters { e_i := -1, s_n := -1, t_f := -1, j_p := -1 }) 6 =
      { head := 0, eye := 3, mouth := 5 } :=
  scenarioA_params_eval

/-- The four-feature shape bundle handled by the animation controller
(head, left_eye, right_eye, mouth; a feature a library entry lacks is the
empty polyline). -/
structure Shapes where
  head : List Pt
  left_eye : List Pt
  right_eye : List Pt
  mouth : List Pt
deriving DecidableEq, Repr

/-- CONFIG.ANIMATION.MORPH.SAMPLE_POINTS in the live configuration. -/
def SAMPLE_POINTS : ℕ := 32

/-- Pointwise blend used in every interpolation site of the controller:
p1 + (p2 - p1) * factor on each axis. -/
def blendPt (factor : ℚ) (p1 p2 : Pt) : Pt :=
  { x := p1.x + (p2.x - p1.x) * factor
    y := p1.y + (p2.y - p1.y) * factor }

/-- AnimationController.morphFeaturePoints.  Guards in source order: both
empty gives empty; one empty gives the other; factor at most 0 gives the
first; factor at least 1 gives the second; equal lengths blend pointwise.
With mismatched lengths the live configuration has
CONFIG.ANIMATION.MORPH.RESAMPLE_DURING_MORPH = true and FaceApp.utils.resample
loaded, and CONFIG.ANIMATION.MORPH.SAMPLE_POINTS = 32 is truthy, so both
polylines are resampled to 32 points and blended pointwise (the zipWith
matches the source map-with-index because both resampled lists have exactly
32 points; see resample_length). -/
def morphFeaturePoints (d : Pt → Pt → ℚ) (points1 points2 : List Pt) (factor : ℚ) : List Pt :=
  if points1.length = 0 ∧ points2.length = 0 then []
  else if points1.length = 0 then points2
  else if points2.length = 0 then points1
  else if factor ≤ 0 then points1
  else if 1 ≤ factor then points2
  else if points1.length = points2.length then
    List.zipWith (blendPt factor) points1 points2
  else
    List.zipWith (blendPt factor)
      (resample d points1 SAMPLE_POINTS) (resample d points2 SAMPLE_POINTS)

/-- C9: pointwise interpolation degenerates on empty inputs: if the current
polyline is empty the target is returned, if the target is empty the current
is returned, and both empty give the empty polyline.  The function is total
and its outputs are exact rationals, so nothing is raised and no NaN can be
produced. -/
theorem morphFeaturePoints_empty_degenerate (d : Pt → Pt → ℚ)
    (points1 points2 : List Pt) (factor : ℚ) :
    (points1 = [] → morphFeaturePoints d points1 points2 factor = points2) ∧
    (points2 = [] → morphFeaturePoints d points1 points2 factor = points1) ∧
    (points1 = [] → points2 = [] → morphFeaturePoints d points1 points2 factor = []) := by
  refine ⟨?_, ?_, ?_⟩
  · intro h1
    subst h1
    by_cases h2 : points2 = []
    · subst h2; simp [morphFeaturePoints]
    · simp [morphFeaturePoints, List.length_eq_zero, h2]
  · intro h2
    subst h2
    by_cases h1 : points1 = []
    · subst h1; simp [morphFeaturePoints]
    · simp [morphFeaturePoints, List.length_eq_zero, h1]
  · intro h1 h2
    subst h1; subst h2
    simp [morphFeaturePoints]

/-- Witness for C9 at concrete inputs. -/
theorem morphFeaturePoints_empty_degenerate_witness :
    morphFeaturePoints metricL1 [] [{ x := 1, y := 2 }] (1 / 3) = [{ x := 1, y := 2 }] ∧
    morphFeaturePoints metricL1 [{ x := 1, y := 2 }] [] (1 / 3) = [{ x := 1, y := 2 }] ∧
    morphFeaturePoints metricL1 [] [] (1 / 3) = [] :=
  ⟨(morphFeaturePoints_empty_degenerate metricL1 [] [{ x := 1, y := 2 }] (1 / 3)).1 rfl,
   (morphFeaturePoints_empty_degenerate metricL1 [{ x := 1, y := 2 }] [] (1 / 3)).2.1 rfl,
   (morphFeaturePoints_empty_degenerate metricL1 [] [] (1 / 3)).2.2 rfl rfl⟩

/-- The AnimationController state field: idle or morphing. -/
inductive CtrlState
  | idle
  | morphing
deriving DecidableEq, Repr

/-- The mutable fields of AnimationController.  hasAnimation models whether
this.animation holds a live anime.js animation object; progress models
this.progress.value, the eased tween value in [0, 1] that
updateMorphedShapes reads directly. -/
structure AnimState where
  state : CtrlState
  currentShapes : Option Shapes
  targetShapes : Option Shapes
  morphedShapes : Option Shapes
  progress : ℚ
  hasAnimation : Bool
deriving DecidableEq, Repr

/-- AnimationController.deepCloneShapes on a present shapes object: a fresh
object with each point copied field by field (a value identity). -/
def deepCloneShapes (shapes : Shapes) : Shapes :=
  { head := shapes.head.map (fun p => { x := p.x, y := p.y })
    left_eye := shapes.left_eye.map (fun p => { x := p.x, y := p.y })
    right_eye := shapes.right_eye.map (fun p => { x := p.x, y := p.y })
    mouth := shapes.mouth.map (fun p => { x := p.x, y := p.y }) }

lemma deepCloneShapes_eq (s : Shapes) : deepCloneShapes s = s := by
  have hid : (fun p : Pt => ({ x := p.x, y := p.y } : Pt)) = id := by
    funext p
    cases p
    rfl
  cases s
  simp [deepCloneShapes, hid]

/-- AnimationController.updateMorphedShapes: when both current and target are
present, blend every feature at the current progress; otherwise return
unchanged (the source returns early). -/
def updateMorphedShapes (d : Pt → Pt → ℚ) (a : AnimState) : AnimState :=
  match a.currentShapes, a.targetShapes with
  | some cur, some tgt =>
    let blended : Shapes :=
      { head := morphFeaturePoints d cur.head tgt.head a.progress
        left_eye := morphFeaturePoints d cur.left_eye tgt.left_eye a.progress
        right_eye := morphFeaturePoints d cur.right_eye tgt.right_eye a.progress
        mouth := morphFeaturePoints d cur.mouth tgt.mouth a.progress }
    { a with morphedShapes := some blended }
  | _, _ => a

/-- PortraitApp state relevant to the change guard.  currentShapeIndices is
this.currentShapeIndices, updated only by the onComplete callback of a
finished morph; pendingIndices models the indices captured by the
onCompleteCallback currently registered on the animation controller. -/
structure PortraitState where
  currentShapeIndices : Option ShapeIndices
  pendingIndices : Option ShapeIndices
  anim : AnimState
deriving DecidableEq, Repr

/-- AnimationController.morphTo as invoked by PortraitApp.startShapeMorphing,
whose onComplete callback commits newIndices into currentShapeIndices.
Branches, in source order:
  - already morphing with a live animation: only targetShapes is replaced
    (the deep clone of the new target); callbacks and everything else stay;
  - otherwise the target and the callbacks are stored; if there are no
    current shapes yet, current and morphed are set to clones of the target
    and onComplete fires immediately (committing newIndices) with no
    animation started;
  - otherwise startAnimation runs: state becomes morphing, progress resets
    to 0 and a live animation exists. -/
def morphTo (s : PortraitState) (targetShapes : Shapes) (newIndices : ShapeIndices) :
    PortraitState :=
  if s.anim.state = CtrlState.morphing ∧ s.anim.hasAnimation = true then
    { s with anim := { s.anim with targetShapes := some (deepCloneShapes targetShapes) } }
  else
    match s.anim.currentShapes with
    | none =>
      { currentShapeIndices := some newIndices
        pendingIndices := some newIndices
        anim := { s.anim with
                  targetShapes := some (deepCloneShapes targetShapes)
                  currentShapes := some (deepCloneShapes targetShapes)
                  morphedShapes := some (deepCloneShapes targetShapes) } }
    | some _ =>
      { currentShapeIndices := s.currentShapeIndices
        pendingIndices := some newIndices
        anim := { s.anim with
                  targetShapes := some (deepCloneShapes targetShapes)
                  state := CtrlState.morphing
                  progress := 0
                  hasAnimation := true } }

/-- PortraitApp.startShapeMorphing: compute the new discrete indices from the
incoming parameters; if a baseline exists and structurally equals the new
indices, skip; otherwise delegate to morphTo with an onComplete that commits
the new indices. -/
def startShapeMorphing (s : PortraitState) (newShapes : Shapes) (newParams : FaceParams)
    (faceCount : ℕ) : PortraitState :=
  let newIndices := getShapeIndices newParams faceCount
  match s.currentShapeIndices with
  | some currentIndices =>
    if currentIndices = newIndices then s
    else morphTo s newShapes newIndices
  | none => morphTo s newShapes newIndices

/-- The Morph class of morph.js: a variants table, a fixed sample count N,
current and target polylines (resampled to N at construction), progress t and
a duration. -/
structure Morph where
  variants : String → List Pt
  N : ℕ
  curr : List Pt
  target : List Pt
  t : ℚ
  dur : ℚ

/-- Morph.setTarget: resample the keyed variant to N points and reset the
animation progress to 0.  The source does this unconditionally — there is no
guard comparing the new target with the current shape. -/
def Morph.setTarget (d : Pt → Pt → ℚ) (m : Morph) (key : String) : Morph :=
  { m with target := resample d (m.variants key) m.N, t := 0 }

/-- A variants table whose every entry is the single origin point. -/
def constVariants : String → List Pt := fun _ => [{ x := 0, y := 0 }]

/-- A settled Morph (t = 1) whose current shape equals what its variant
resamples to. -/
def mSettled : Morph :=
  { variants := constVariants, N := 4
    curr := List.replicate 4 { x := 0, y := 0 }
    target := List.replicate 4 { x := 0, y := 0 }
    t := 1, dur := 3 / 5 }

lemma mSettled_resample :
    resample metricL1 (mSettled.variants "head") mSettled.N = mSettled.curr := by
  simp [mSettled, constVariants, resample, totalLengthOf]

/-- Counterexample to C4: a settled animator (progress 1) retargeted to a
content-equal target is not a no-op — the call resets progress to 0.  The
source setTarget has no same-content guard. -/
theorem setTarget_counterexample :
    mSettled.t = 1 ∧
    (Morph.setTarget metricL1 mSettled "head").target = mSettled.curr ∧
    (Morph.setTarget metricL1 mSettled "head").t ≠ mSettled.t := by
  refine ⟨rfl, ?_, by norm_num [Morph.setTarget, mSettled]⟩
  show resample metricL1 (mSettled.variants "head") mSettled.N = mSettled.curr
  exact mSettled_resample

/-- C4 amended: setTarget unconditionally stores the resampled variant as the
target and resets progress to 0, even when the animator is settled and the
new target has exactly the content of the current shape; progress resets on
every setTarget call, not only for different targets (change guarding lives
in the controller, not in the animator). -/
theorem setTarget_always_resets (d : Pt → Pt → ℚ) (m : Morph) (key : String)
    (hsettled : m.t = 1) (hsame : resample d (m.variants key) m.N = m.curr) :
    (Morph.setTarget d m key).t = 0 ∧ (Morph.setTarget d m key).target = m.curr :=
  ⟨rfl, by simp [Morph.setTarget, hsame]⟩

/-- Witness for the amended C4 at the settled content-equal instance. -/
theorem setTarget_always_resets_witness :
    (Morph.setTarget metricL1 mSettled "head").t = 0 ∧
    (Morph.setTarget metricL1 mSettled "head").target = mSettled.curr :=
  setTarget_always_resets metricL1 mSettled "head" rfl mSettled_resample

/-- A two-point and a three-point head polyline. -/
def twoPtShapes : Shapes :=
  { head := [{ x := 0, y := 0 }, { x := 1, y := 0 }]
    left_eye := [], right_eye := [], mouth := [] }

/-- Shapes whose head has three points. -/
def threePtShapes : Shapes :=
  { head := [{ x := 0, y := 0 }, { x := 1, y := 0 }, { x := 2, y := 0 }]
    left_eye := [], right_eye := [], mouth := [] }

/-- An idle controller displaying the two-point shapes. -/
def sIdle : PortraitState :=
  { currentShapeIndices := some { head := 0, eye := 0, mouth := 0 }
    pendingIndices := none
    anim := { state := CtrlState.idle, currentShapes := some twoPtShapes
              targetShapes := some twoPtShapes, morphedShapes := some twoPtShapes
              progress := 1, hasAnimation := false } }

/-- Counterexample to C5: setting a three-point target while the current
shape has two points starts a morph whose current and target polylines have
different point counts — no resampling to max(len(current), len(newTarget))
happens when the target is set, and the equal-count invariant fails
mid-morph. -/
theorem midMorph_point_counts_counterexample :
    (morphTo sIdle threePtShapes { head := 1, eye := 0, mouth := 0 }).anim.state =
      CtrlState.morphing ∧
    ((morphTo sIdle threePtShapes { head := 1, eye := 0, mouth := 0 }).anim.currentShapes.map
      (fun sh => sh.head.length)) = some 2 ∧
    ((morphTo sIdle threePtShapes { head := 1, eye := 0, mouth := 0 }).anim.targetShapes.map
      (fun sh => sh.head.length)) = some 3 := by
  refine ⟨?_, ?_, ?_⟩ <;>
    simp [morphTo, sIdle, twoPtShapes, threePtShapes, deepCloneShapes]

/-- C5 amended: current and target polylines are stored without resampling
and may hold different point counts mid-morph.  Point-count mismatches are
handled per frame instead: for a blend factor strictly between 0 and 1,
morphFeaturePoints on non-empty polylines of different lengths resamples both
to the configured 32 sample points, so the blended frame has exactly 32
points. -/
theorem morph_normalizes_counts_per_frame (d : Pt → Pt → ℚ) (p1 p2 : List Pt) (f : ℚ)
    (h1 : p1 ≠ []) (h2 : p2 ≠ []) (hf0 : 0 < f) (hf1 : f < 1)
    (hlen : p1.length ≠ p2.length) :
    (morphFeaturePoints d p1 p2 f).length = SAMPLE_POINTS := by
  have g1 : ¬(p1.length = 0 ∧ p2.length = 0) := by
    intro h
    exact h1 (List.length_eq_zero.mp h.1)
  have g2 : ¬p1.length = 0 := fun a => h1 (List.length_eq_zero.mp a)
  have g3 : ¬p2.length = 0 := fun a => h2 (List.length_eq_zero.mp a)
  have g4 : ¬f ≤ 0 := not_le.mpr hf0
  have g5 : ¬(1 : ℚ) ≤ f := not_le.mpr hf1
  rw [morphFeaturePoints, if_neg g1, if_neg g2, if_neg g3, if_neg g4, if_neg g5,
    if_neg hlen, List.length_zipWith,
    resample_length d p1 SAMPLE_POINTS h1 (by norm_num [SAMPLE_POINTS]),
    resample_length d p2 SAMPLE_POINTS h2 (by norm_num [SAMPLE_POINTS])]
  exact min_self _

/-- Witness for the amended C5 on a two-point and a three-point polyline. -/
theorem morph_normalizes_counts_per_frame_witness :
    (morphFeaturePoints metricL1 twoPtShapes.head threePtShapes.head (1 / 2)).length =
      SAMPLE_POINTS :=
  morph_normalizes_counts_per_frame metricL1 twoPtShapes.head threePtShapes.head (1 / 2)
    (by simp [twoPtShapes]) (by simp [threePtShapes]) (by norm_num) (by norm_num)
    (by simp [twoPtShapes, threePtShapes])

/-- The shapes of the in-flight morph at the moment of retargeting. -/
def shapeA : Shapes := { head := [{ x := 0, y := 0 }], left_eye := [], right_eye := [], mouth := [] }

/-- The original morph target. -/
def shapeT1 : Shapes := { head := [{ x := 4, y := 0 }], left_eye := [], right_eye := [], mouth := [] }

/-- The new target supplied mid-morph. -/
def shapeT2 : Shapes := { head := [{ x := 0, y := 8 }], left_eye := [], right_eye := [], mouth := [] }

/-- The in-flight interpolated shape at progress one half. -/
def shapeInFlight : Shapes :=
  { head := [{ x := 2, y := 0 }], left_eye := [], right_eye := [], mouth := [] }

/-- The first frame displayed after the retarget. -/
def shapeAfterRetarget : Shapes :=
  { head := [{ x := 0, y := 4 }], left_eye := [], right_eye := [], mouth := [] }

/-- A controller halfway through a morph from shapeA to shapeT1. -/
def sMid : PortraitState :=
  { currentShapeIndices := some { head := 0, eye := 0, mouth := 0 }
    pendingIndices := some { head := 1, eye := 0, mouth := 0 }
    anim := { state := CtrlState.morphing, currentShapes := some shapeA
              targetShapes := some shapeT1, morphedShapes := some shapeInFlight
              progress := 1 / 2, hasAnimation := true } }

/-- Counterexample to C6: retargeting mid-morph does not make the in-flight
interpolated shape the new starting point.  At progress one half the
in-flight shape is (2, 0); after retargeting to shapeT2, currentShapes is
still the original pre-morph starting shape (0, 0) — which is exactly the
stale value the claim says is avoided — and the next frame displays (0, 4),
a jump away from the in-flight (2, 0). -/
theorem morphTo_retarget_counterexample :
    (updateMorphedShapes metricL1 sMid.anim).morphedShapes = some shapeInFlight ∧
    (morphTo sMid shapeT2 { head := 2, eye := 0, mouth := 0 }).anim.currentShapes =
      some shapeA ∧
    some shapeA ≠ some shapeInFlight ∧
    (updateMorphedShapes metricL1
        (morphTo sMid shapeT2 { head := 2, eye := 0, mouth := 0 }).anim).morphedShapes =
      some shapeAfterRetarget := by
  refine ⟨?_, ?_, ?_, ?_⟩
  · norm_num [updateMorphedShapes, sMid, shapeA, shapeT1, shapeInFlight,
      morphFeaturePoints, blendPt]
  · simp [morphTo, sMid]
  · simp [shapeA, shapeInFlight]
  · norm_num [updateMorphedShapes, morphTo, sMid, shapeA, shapeT2, shapeAfterRetarget,
      deepCloneShapes, morphFeaturePoints, blendPt]

/-- C6 amended: retargeting while a morph is in progress replaces only the
stored target (with a clone of the new shapes); currentShapes keeps the
original starting shape of the morph, progress is not reset, and the
registered callbacks stay, so interpolation continues from the original
start toward the new target at the in-flight progress (the displayed shape
can jump at the retarget instant). -/
theorem morphTo_retarget_keeps_current (s : PortraitState) (t : Shapes) (i : ShapeIndices)
    (h1 : s.anim.state = CtrlState.morphing) (h2 : s.anim.hasAnimation = true) :
    morphTo s t i =
      { s with anim := { s.anim with targetShapes := some (deepCloneShapes t) } } := by
  rw [morphTo, if_pos ⟨h1, h2⟩]

/-- Witness for the amended C6 at the concrete mid-morph state. -/
theorem morphTo_retarget_keeps_current_witness :
    morphTo sMid shapeT2 { head := 2, eye := 0, mouth := 0 } =
      { sMid with anim := { sMid.anim with targetShapes := some (deepCloneShapes shapeT2) } } :=
  morphTo_retarget_keeps_current sMid shapeT2 { head := 2, eye := 0, mouth := 0 } rfl rfl

/-- Feature names of a library entry. -/
inductive FeatureName
  | head
  | left_eye
  | right_eye
  | mouth
deriving DecidableEq, Repr

/-- One library entry: four polylines. -/
structure FaceSet where
  head : List Pt
  left_eye : List Pt
  right_eye : List Pt
  mouth : List Pt
deriving DecidableEq, Repr

/-- JavaScript selectedFace[featureName] lookup. -/
def FaceSet.feature (f : FaceSet) : FeatureName → List Pt
  | FeatureName.head => f.head
  | FeatureName.left_eye => f.left_eye
  | FeatureName.right_eye => f.right_eye
  | FeatureName.mouth => f.mouth

/-- AppState.getFeatureFromScore: clamp, bucket (the same arithmetic as
selectIndex) and return the selected entry, or the empty polyline when the
lookup lands outside the list (faceSets[i] undefined in JavaScript; the
negative guard matters only for an empty library, where selectIndex is -1). -/
def getFeatureFromScore (faceSets : List FaceSet) (score : ℚ) (featureName : FeatureName)
    (faceCount : ℕ) : List Pt :=
  if selectIndex score faceCount < 0 then []
  else
    match faceSets.get? (selectIndex score faceCount).toNat with
    | some selectedFace => selectedFace.feature featureName
    | none => []

/-- The shapes object built in the cache-miss branch of
AppState.generateCurrentFaceShapes (both eyes read the eye score, a missing
score reads as 0). -/
def generateShapes (faceSets : List FaceSet) (faceParams : FaceParams) : Shapes :=
  { head := getFeatureFromScore faceSets (orZero faceParams.head) FeatureName.head
      faceSets.length
    left_eye := getFeatureFromScore faceSets (orZero faceParams.eye) FeatureName.left_eye
      faceSets.length
    right_eye := getFeatureFromScore faceSets (orZero faceParams.eye) FeatureName.right_eye
      faceSets.length
    mouth := getFeatureFromScore faceSets (orZero faceParams.mouth) FeatureName.mouth
      faceSets.length }

/-- AppState.generateCurrentFaceShapes with its shape cache.  The cache is a
JavaScript Map keyed by JSON.stringify of the indices; a Map preserves
insertion order and holds each key once, so it is modelled as an
insertion-ordered association list.  On a hit the cached entry is returned
unchanged; on a miss the new entry is appended, and if the size then exceeds
50 the first (oldest) key is deleted.  The isDataLoaded guard and the
lastShapeIndices debug field of the source do not affect the cache and are
omitted. -/
def generateCurrentFaceShapes (faceSets : List FaceSet) (faceParams : FaceParams)
    (shapeCache : List (ShapeIndices × Shapes)) : List (ShapeIndices × Shapes) × Shapes :=
  match shapeCache.find?
      (fun e => decide (e.1 = getShapeIndices faceParams faceSets.length)) with
  | some e => (shapeCache, e.2)
  | none =>
    let cache1 := shapeCache ++
      [(getShapeIndices faceParams faceSets.length, generateShapes faceSets faceParams)]
    (if 50 < cache1.length then cache1.drop 1 else cache1, generateShapes faceSets faceParams)

lemma gen_step_le (faceSets : List FaceSet) (p : FaceParams)
    (cache : List (ShapeIndices × Shapes)) (h : cache.length ≤ 50) :
    (generateCurrentFaceShapes faceSets p cache).1.length ≤ 50 := by
  unfold generateCurrentFaceShapes
  cases hf : cache.find? (fun e => decide (e.1 = getShapeIndices p faceSets.length)) with
  | some e => exact h
  | none =>
    dsimp only
    split_ifs with hlen
    · simp only [List.length_drop, List.length_append, List.length_singleton]
      omega
    · simp only [List.length_append, List.length_singleton] at hlen ⊢
      omega

lemma gen_fold_le (faceSets : List FaceSet) :
    ∀ (ps : List FaceParams) (cache : List (ShapeIndices × Shapes)), cache.length ≤ 50 →
      (ps.foldl (fun c p => (generateCurrentFaceShapes faceSets p c).1) cache).length ≤ 50 := by
  intro ps
  induction ps with
  | nil => intro cache h; simpa using h
  | cons p ps ih =>
    intro cache h
    rw [List.foldl_cons]
    exact ih _ (gen_step_le faceSets p cache h)

/-- C8: the shape cache is bounded by 50 entries after any sequence of
generateCurrentFaceShapes calls, and when a fresh key would push a full cache
past the bound the evicted entry is exactly the oldest-inserted one (the new
cache is the old one without its head, with the fresh entry appended). -/
theorem shapeCache_bounded_fifo (faceSets : List FaceSet) :
    (∀ ps : List FaceParams,
      (ps.foldl (fun c p => (generateCurrentFaceShapes faceSets p c).1) []).length ≤ 50) ∧
    (∀ (p : FaceParams) (cache : List (ShapeIndices × Shapes)),
      cache.length = 50 →
      (∀ e ∈ cache, e.1 ≠ getShapeIndices p faceSets.length) →
      (generateCurrentFaceShapes faceSets p cache).1 =
        cache.drop 1 ++
          [(getShapeIndices p faceSets.length, (generateCurrentFaceShapes faceSets p cache).2)]) := by
  constructor
  · intro ps
    exact gen_fold_le faceSets ps [] (by simp)
  · intro p cache hlen hfresh
    have hf : cache.find? (fun e => decide (e.1 = getShapeIndices p faceSets.length)) = none := by
      rw [List.find?_eq_none]
      intro x hx
      simpa using hfresh x hx
    unfold generateCurrentFaceShapes
    rw [hf]
    dsimp only
    have h51 : 50 <
        (cache ++ [(getShapeIndices p faceSets.length, generateShapes faceSets p)]).length := by
      simp [hlen]
    rw [if_pos h51]
    cases cache with
    | nil => simp at hlen
    | cons c0 cs => simp

/-- The all-empty shapes value. -/
def emptyShapes : Shapes := { head := [], left_eye := [], right_eye := [], mouth := [] }

/-- A faceParams object with every score missing. -/
def noParams : FaceParams :=
  { head := none, eye := none, mouth := none, proportion := none, movement := none }

/-- A full cache of 50 distinct keys, none of which is the key of noParams. -/
def cache50 : List (ShapeIndices × Shapes) :=
  (List.range 50).map (fun i => ({ head := (i : ℤ), eye := 0, mouth := 0 }, emptyShapes))

lemma noParams_indices :
    getShapeIndices noParams 0 = { head := -1, eye := -1, mouth := -1 } := by
  have h : selectIndex 0 0 = -1 := by
    unfold selectIndex
    norm_num
  simp [getShapeIndices, noParams, orZero, h]

/-- Witness for C8: a full 50-entry cache receiving a fresh key evicts
exactly its oldest entry. -/
theorem shapeCache_bounded_fifo_witness :
    (generateCurrentFaceShapes [] noParams cache50).1 =
      cache50.drop 1 ++ [(getShapeIndices noParams ([] : List FaceSet).length,
        (generateCurrentFaceShapes [] noParams cache50).2)] :=
  (shapeCache_bounded_fifo []).2 noParams cache50 (by decide)
    (by
      have h0 : getShapeIndices noParams ([] : List FaceSet).length =
          { head := -1, eye := -1, mouth := -1 } := noParams_indices
      simp only [h0]
      decide)

lemma startShapeMorphing_congr_indices (s : PortraitState) (sh : Shapes)
    (p1 p2 : FaceParams) (k : ℕ)
    (h : getShapeIndices p1 k = getShapeIndices p2 k) :
    startShapeMorphing s sh p2 k = startShapeMorphing s sh p1 k := by
  unfold startShapeMorphing
  rw [← h]

/-- A second generateCurrentFaceShapes call with the same resolved indices
neither changes the cache nor produces different shapes. -/
lemma gen_second_call_stable (faceSets : List FaceSet) (p1 p2 : FaceParams)
    (cache : List (ShapeIndices × Shapes))
    (h : getShapeIndices p1 faceSets.length = getShapeIndices p2 faceSets.length) :
    generateCurrentFaceShapes faceSets p2 (generateCurrentFaceShapes faceSets p1 cache).1 =
      generateCurrentFaceShapes faceSets p1 cache := by
  cases hf : cache.find? (fun e => decide (e.1 = getShapeIndices p1 faceSets.length)) with
  | some e =>
    have h1 : generateCurrentFaceShapes faceSets p1 cache = (cache, e.2) := by
      unfold generateCurrentFaceShapes
      rw [hf]
    rw [h1]
    unfold generateCurrentFaceShapes
    rw [← h, hf]
  | none =>
    have h1 : generateCurrentFaceShapes faceSets p1 cache =
        (if 50 < (cache ++ [(getShapeIndices p1 faceSets.length,
            generateShapes faceSets p1)]).length
         then (cache ++ [(getShapeIndices p1 faceSets.length,
            generateShapes faceSets p1)]).drop 1
         else cache ++ [(getShapeIndices p1 faceSets.length, generateShapes faceSets p1)],
         generateShapes faceSets p1) := by
      unfold generateCurrentFaceShapes
      rw [hf]
    rw [h1]
    by_cases hcap : 50 < (cache ++ [(getShapeIndices p1 faceSets.length,
        generateShapes faceSets p1)]).length
    · rw [if_pos hcap]
      have hcachene : cache ≠ [] := by
        intro hnil
        rw [hnil] at hcap
        simp at hcap
      have hdropnone : (cache.drop 1).find?
          (fun e => decide (e.1 = getShapeIndices p1 faceSets.length)) = none := by
        rw [List.find?_eq_none] at hf ⊢
        intro x hx
        exact hf x (List.mem_of_mem_drop hx)
      have hsplit : (cache ++ [(getShapeIndices p1 faceSets.length,
          generateShapes faceSets p1)]).drop 1 =
          cache.drop 1 ++ [(getShapeIndices p1 faceSets.length, generateShapes faceSets p1)] := by
        cases cache with
        | nil => exact absurd rfl hcachene
        | cons c0 cs => simp
      unfold generateCurrentFaceShapes
      rw [← h, hsplit, List.find?_append, hdropnone, Option.none_or, List.find?_cons]
      simp
    · rw [if_neg hcap]
      unfold generateCurrentFaceShapes
      rw [← h, List.find?_append, hf, Option.none_or, List.find?_cons]
      simp

lemma startShapeMorphing_idem (s : PortraitState) (sh : Shapes) (p : FaceParams) (k : ℕ) :
    startShapeMorphing (startShapeMorphing s sh p k) sh p k =
      startShapeMorphing s sh p k := by
  obtain ⟨sci, spi, sst, scs, sts, sms, spr, sha⟩ := s
  by_cases hmid : sst = CtrlState.morphing ∧ sha = true
  · cases hci : sci with
    | some ci =>
      by_cases heq : ci = getShapeIndices p k
      · simp [startShapeMorphing, heq]
      · simp [startShapeMorphing, heq, morphTo, hmid]
    | none =>
      simp [startShapeMorphing, morphTo, hmid]
  · cases hcs : scs with
    | none =>
      cases hci : sci with
      | some ci =>
        by_cases heq : ci = getShapeIndices p k
        · simp [startShapeMorphing, heq]
        · simp [startShapeMorphing, heq, morphTo, hmid]
      | none =>
        simp [startShapeMorphing, morphTo, hmid]
    | some cs =>
      cases hci : sci with
      | some ci =>
        by_cases heq : ci = getShapeIndices p k
        · simp [startShapeMorphing, heq]
        · simp [startShapeMorphing, heq, morphTo, hmid]
      | none =>
        simp [startShapeMorphing, morphTo, hmid]

/-- C7: when two consecutive vector updates resolve to structurally equal
DiscreteIndexSets, the second update changes nothing: the cache lookup
returns exactly the same cache and shapes (so the second update hands the
same shapes object to the morph starter), and running startShapeMorphing a
second time leaves the controller and animation state exactly as the first
call left them — no morph is started or restarted. -/
theorem changeGuard_second_update_noop (faceSets : List FaceSet) (p1 p2 : FaceParams)
    (cache : List (ShapeIndices × Shapes)) (s : PortraitState)
    (h : getShapeIndices p1 faceSets.length = getShapeIndices p2 faceSets.length) :
    generateCurrentFaceShapes faceSets p2 (generateCurrentFaceShapes faceSets p1 cache).1 =
      generateCurrentFaceShapes faceSets p1 cache ∧
    startShapeMorphing
        (startShapeMorphing s (generateCurrentFaceShapes faceSets p1 cache).2 p1
          faceSets.length)
        (generateCurrentFaceShapes faceSets p1 cache).2 p2 faceSets.length =
      startShapeMorphing s (generateCurrentFaceShapes faceSets p1 cache).2 p1
        faceSets.length := by
  refine ⟨gen_second_call_stable faceSets p1 p2 cache h, ?_⟩
  rw [startShapeMorphing_congr_indices _ _ p1 p2 _ h]
  exact startShapeMorphing_idem s (generateCurrentFaceShapes faceSets p1 cache).2 p1
    faceSets.length

/-- A freshly constructed controller state: nothing displayed yet. -/
def sInit : PortraitState :=
  { currentShapeIndices := none, pendingIndices := none
    anim := { state := CtrlState.idle, currentShapes := none, targetShapes := none
              morphedShapes := none, progress := 1, hasAnimation := false } }

/-- Witness for C7: two identical updates against the fresh state and the
empty cache. -/
theorem changeGuard_second_update_noop_witness :
    generateCurrentFaceShapes [] noParams (generateCurrentFaceShapes [] noParams []).1 =
      generateCurrentFaceShapes [] noParams [] ∧
    startShapeMorphing
        (startShapeMorphing sInit (generateCurrentFaceShapes [] noParams []).2 noParams
          ([] : List FaceSet).length)
        (generateCurrentFaceShapes [] noParams []).2 noParams ([] : List FaceSet).length =
      startShapeMorphing sInit (generateCurrentFaceShapes [] noParams []).2 noParams
        ([] : List FaceSet).length :=
  changeGuard_second_update_noop [] noParams noParams [] sInit rfl

end SelfPortrait
